import Mathlib

/-!
Verification development for the inverter2mqtt device-communication codec
(`src/inverter.rs`, `src/parse.rs`).

Machine integers (u8/u16/i64/...) are modelled as `Nat`/`Int` with explicit
masking (`&&& 0xff`, `% 65536`) wherever the Rust code relies on a fixed
width.  Byte buffers (`Vec<u8>`, `&[u8]`) are `List Nat` whose reachable
elements are below 256.  Rust `String`/`&str` values are Lean `String`s;
the conversions between strings and byte sequences (`str::bytes`,
`str::from_utf8`, `String::from_utf8_lossy`) are modelled by explicit
UTF-8 encoders/decoders below.  `f64`/`f32` values are modelled as exact
decimal rationals (plus infinity/NaN markers); the final IEEE rounding
step of Rust's float parser is not modelled, which is irrelevant here
because every statement compares values produced through the same parser.
-/

namespace Inverter2Mqtt

/-! ## ChecksumEngine (`Inverter::calc_crc`, CRC-16/XMODEM via the `crc` crate) -/

/-- One shift step of the CRC-16/XMODEM algorithm (polynomial 0x1021, MSB
first, register truncated to 16 bits), as performed by the `crc` crate used
in `Inverter::calc_crc`. -/
def crcRound (s : Nat) : Nat :=
  if s &&& 0x8000 == 0 then (s <<< 1) % 65536
  else ((s <<< 1) ^^^ 0x1021) % 65536

/-- Eight CRC shift steps, one input byte's worth. -/
def crcShift8 (s : Nat) : Nat :=
  crcRound (crcRound (crcRound (crcRound (crcRound (crcRound (crcRound (crcRound s)))))))

/-- Feed one input byte into the CRC register: xor the byte into the high
half of the register, then shift eight times.  This is the standard bitwise
form of the table-driven update done by the `crc` crate for
`CRC_16_XMODEM` (init 0x0000, no reflection, no final xor). -/
def crcUpdate (s b : Nat) : Nat :=
  crcShift8 (s ^^^ ((b &&& 0xff) <<< 8))

/-- Model of `Inverter::calc_crc`: CRC-16/XMODEM over a byte sequence, starting from
register 0. -/
def calc_crc (data : List Nat) : Nat :=
  data.foldl crcUpdate 0

/-- Pointwise self-verification check on the low byte `l` of the register:
after the first checksum byte has been absorbed the register is
`crcShift8 l`, and absorbing the second checksum byte must clear it. -/
def crcLowCheck (l : Nat) : Bool :=
  crcUpdate (crcShift8 l) l == 0

/-- The check `crcLowCheckBelow n` holds when `crcLowCheck` passes for every value
below `n` (written with a bare recursor so that it evaluates iteratively). -/
def crcLowCheckBelow (n : Nat) : Bool :=
  Nat.rec true (fun m ih => crcLowCheck m && ih) n

/-! ## UTF-8 (models of `str::bytes`, `str::from_utf8`, `String::from_utf8_lossy`) -/

/-- UTF-8 encoding of one Unicode scalar value (model of how Rust strings
store their bytes; `str::bytes` yields exactly these). -/
def charUtf8 (c : Char) : List Nat :=
  let n := c.toNat
  if n < 0x80 then [n]
  else if n < 0x800 then
    [0xC0 ||| (n >>> 6), 0x80 ||| (n &&& 0x3F)]
  else if n < 0x10000 then
    [0xE0 ||| (n >>> 12), 0x80 ||| ((n >>> 6) &&& 0x3F), 0x80 ||| (n &&& 0x3F)]
  else
    [0xF0 ||| (n >>> 18), 0x80 ||| ((n >>> 12) &&& 0x3F),
      0x80 ||| ((n >>> 6) &&& 0x3F), 0x80 ||| (n &&& 0x3F)]

/-- Byte sequence of a Rust string (`str::bytes` / `str::as_bytes`). -/
def strBytes (s : String) : List Nat :=
  (s.toList.map charUtf8).flatten

/-- Is `b` a UTF-8 continuation byte (`0x80..=0xBF`)? -/
def utf8IsCont (b : Nat) : Bool :=
  0x80 ≤ b && b < 0xC0

/-- Valid range for the second byte of a 3-byte sequence, given lead `b0`
(the constrained ranges exclude overlong encodings and surrogates). -/
def utf8Valid2 (b0 b1 : Nat) : Bool :=
  if b0 == 0xE0 then 0xA0 ≤ b1 && b1 < 0xC0
  else if b0 == 0xED then 0x80 ≤ b1 && b1 < 0xA0
  else utf8IsCont b1

/-- Valid range for the second byte of a 4-byte sequence, given lead `b0`
(the constrained ranges exclude overlong encodings and values above
U+10FFFF). -/
def utf8Valid3 (b0 b1 : Nat) : Bool :=
  if b0 == 0xF0 then 0x90 ≤ b1 && b1 < 0xC0
  else if b0 == 0xF4 then 0x80 ≤ b1 && b1 < 0x90
  else utf8IsCont b1

/-- Try to decode one UTF-8 scalar starting with byte `b0` followed by
`rest`.  Returns the code point and how many continuation bytes were
consumed, or `none` if no valid sequence starts here.  Follows the standard
table (identical to Rust's `core::str::validations`). -/
def utf8DecodeOne (b0 : Nat) (rest : List Nat) : Option (Nat × Nat) :=
  if b0 < 0x80 then some (b0, 0)
  else if b0 < 0xC2 then none
  else if b0 < 0xE0 then
    match rest with
    | b1 :: _ =>
      if utf8IsCont b1 then some (((b0 - 0xC0) <<< 6) ||| (b1 - 0x80), 1) else none
    | [] => none
  else if b0 < 0xF0 then
    match rest with
    | b1 :: b2 :: _ =>
      if utf8Valid2 b0 b1 && utf8IsCont b2 then
        some (((b0 - 0xE0) <<< 12) ||| ((b1 - 0x80) <<< 6) ||| (b2 - 0x80), 2)
      else none
    | _ => none
  else if b0 < 0xF5 then
    match rest with
    | b1 :: b2 :: b3 :: _ =>
      if utf8Valid3 b0 b1 && utf8IsCont b2 && utf8IsCont b3 then
        some (((b0 - 0xF0) <<< 18) ||| ((b1 - 0x80) <<< 12) |||
          ((b2 - 0x80) <<< 6) ||| (b3 - 0x80), 3)
      else none
    | _ => none
  else none

/-- Strict UTF-8 decoding with fuel (one unit per input byte suffices, as
each decoded or rejected scalar consumes at least one byte).  Written with
fuel so that it is structurally recursive and reduces definitionally. -/
def utf8DecodeGo : Nat → List Nat → Option (List Char)
  | _, [] => some []
  | 0, _ :: _ => none
  | fuel + 1, b :: rest =>
    match utf8DecodeOne b rest with
    | none => none
    | some (cp, k) =>
      match utf8DecodeGo fuel (rest.drop k) with
      | none => none
      | some cs => some (Char.ofNat cp :: cs)

/-- Strict UTF-8 decoding of a byte sequence (model of `str::from_utf8`):
`none` on any invalid sequence. -/
def utf8DecodeList (bytes : List Nat) : Option (List Char) :=
  utf8DecodeGo bytes.length bytes

/-- Model of `str::from_utf8`, producing a `String`. -/
def utf8DecodeStr (bytes : List Nat) : Option String :=
  (utf8DecodeList bytes).map fun cs => String.mk cs

/-- How many continuation bytes belong to the maximal valid subpart of an
invalid sequence led by `b0` (Unicode "substitution of maximal subparts",
which is what Rust's `Utf8Error::error_len` implements). -/
def utf8InvalidExtra (b0 : Nat) (rest : List Nat) : Nat :=
  if 0xE0 ≤ b0 && b0 < 0xF0 then
    match rest with
    | b1 :: _ => if utf8Valid2 b0 b1 then 1 else 0
    | [] => 0
  else if 0xF0 ≤ b0 && b0 < 0xF5 then
    match rest with
    | b1 :: b2 :: _ =>
      if utf8Valid3 b0 b1 then (if utf8IsCont b2 then 2 else 1) else 0
    | [b1] => if utf8Valid3 b0 b1 then 1 else 0
    | [] => 0
  else 0

/-- Lossy UTF-8 decoding with fuel (one unit per input byte suffices). -/
def utf8LossyGo : Nat → List Nat → List Char
  | _, [] => []
  | 0, _ :: _ => []
  | fuel + 1, b :: rest =>
    match utf8DecodeOne b rest with
    | some (cp, k) => Char.ofNat cp :: utf8LossyGo fuel (rest.drop k)
    | none => '�' :: utf8LossyGo fuel (rest.drop (utf8InvalidExtra b rest))

/-- Lossy UTF-8 decoding (model of `String::from_utf8_lossy`): each maximal
invalid subpart is replaced by U+FFFD. -/
def utf8LossyList (bytes : List Nat) : List Char :=
  utf8LossyGo bytes.length bytes

/-- Model of `String::from_utf8_lossy`, producing a `String`. -/
def utf8Lossy (bytes : List Nat) : String :=
  String.mk (utf8LossyList bytes)

/-! ## Hex formatting (`format!("{:#06x}", v)` for a `u16` value) -/

/-- One lowercase hex digit. -/
def hexDigit (n : Nat) : Char :=
  if n < 10 then Char.ofNat (48 + n) else Char.ofNat (87 + n)

/-- Model of `format!("{:#06x}", v)` for `v : u16`: `0x` followed by four lowercase
hex digits (width 6 counts the `0x` prefix; a `u16` always needs at most
four digits). -/
def hexFormat16 (v : Nat) : String :=
  String.mk ['0', 'x', hexDigit ((v >>> 12) &&& 0xF), hexDigit ((v >>> 8) &&& 0xF),
    hexDigit ((v >>> 4) &&& 0xF), hexDigit (v &&& 0xF)]

/-! ## Error types (`InverterError`, `ParseResponseError` in `inverter.rs`).
The opaque `source` payloads of kind `ParseFloatError`/`ParseIntError`
(Rust standard-library error values carried only for display) are not
modelled. -/

inductive ParseResponseError where
  | expectedFloat (sensor : String)
  | expectedInteger (sensor : String)
deriving DecidableEq, Repr

inductive InverterError where
  | device
  | commandTooLong (cmd : String)
  | missingResponseMarker
  | expectedUtf8
  | parseResponse (source : ParseResponseError)
  | invalidCrc (expected actual data : String)
deriving DecidableEq, Repr

/-- Places where `Inverter::read_response` panics (rather than returning a
typed error) on degenerate frames. -/
inductive PanicSite where
  /-- Indexing `resp[0]` with `resp` empty. -/
  | emptyRespIndex
  /-- Computing `resp.len() - 2` with `resp.len() < 2` while building the
  `InvalidCrc` diagnostic (or while stripping), a `usize` underflow. -/
  | crcLenUnderflow
  /-- Slicing `&resp[1..resp.len()-2]` with `resp.len() == 2`: slice start exceeds
  its end. -/
  | stripSlice
deriving DecidableEq, Repr

/-- Outcome of running code that touches the transport: a value, a typed
error, a Rust panic, or blocking forever because the transport never
delivers a terminator. -/
inductive RunResult (α : Type) where
  | ok (a : α)
  | err (e : InverterError)
  | panicked (site : PanicSite)
  | blocked
deriving DecidableEq, Repr

/-! ## FrameCodec (`Inverter::encode_command`, `Inverter::read_response`) -/

def MAX_COMMAND_LENGTH : Nat := 5

/-- Byte value of `b'('`. -/
def START_RESPONSE_MARKER : Nat := 40

/-- Byte value of the terminator `b'\r'`. -/
def END_RESPONSE_MARKER : Nat := 13

/-- Model of `Inverter::encode_command`: command bytes, rejected if longer than
`MAX_COMMAND_LENGTH`, then the CRC high and low bytes, the terminator, and
zero padding up to 8 bytes. -/
def encode_command (cmd : String) : Except InverterError (List Nat) :=
  let res := strBytes cmd
  if res.length > MAX_COMMAND_LENGTH then
    .error (.commandTooLong cmd)
  else
    let crc := calc_crc res
    let res := res ++ [(crc >>> 8) &&& 0xff, crc &&& 0xff, END_RESPONSE_MARKER]
    if res.length < 8 then .ok (res ++ List.replicate (8 - res.length) 0)
    else .ok res

/-- Model of `slice_trim_end_matches`: drop elements from the end while they satisfy
the predicate (the source pops the last element in a loop). -/
def slice_trim_end_matches (f : Nat → Bool) (arr : List Nat) : List Nat :=
  (arr.reverse.dropWhile f).reverse

/-- The read loop of `Inverter::read_response`: the transport fills a fresh
8-byte buffer per iteration (`chunks` lists those buffers), trailing zero
bytes are trimmed from each chunk, the trimmed chunk is appended to the
accumulator, and the loop stops when the trimmed chunk ends with the
terminator, which is then popped.  `none` models a transport that never
delivers a terminator: the Rust loop would keep issuing reads. -/
def readLoop : List (List Nat) → List Nat → Option (List Nat)
  | [], _ => none
  | chunk :: rest, resp =>
    let c := slice_trim_end_matches (fun b => b == 0) chunk
    let resp' := resp ++ c
    if c.getLast? == some END_RESPONSE_MARKER then some resp'.dropLast
    else readLoop rest resp'

/-- Validation and stripping in `Inverter::read_response` (everything after
the read loop): marker check, whole-frame CRC check with the `InvalidCrc`
diagnostic, then marker/checksum stripping and UTF-8 conversion.
Out-of-bounds indexing and `usize` subtraction underflow panic in Rust and
are modelled as explicit `panicked` outcomes. -/
def validateResp (resp : List Nat) : RunResult String :=
  match resp with
  | [] => .panicked .emptyRespIndex
  | b :: _ =>
    if b != START_RESPONSE_MARKER then .err .missingResponseMarker
    else if calc_crc resp != 0 then
      if resp.length < 2 then .panicked .crcLenUnderflow
      else
        let dataForCrc := resp.take (resp.length - 2)
        let actualCrc :=
          ((resp.getD (resp.length - 2) 0) <<< 8) ||| resp.getD (resp.length - 1) 0
        .err (.invalidCrc (hexFormat16 (calc_crc dataForCrc)) (hexFormat16 actualCrc)
          (utf8Lossy dataForCrc))
    else
      if resp.length < 2 then .panicked .crcLenUnderflow
      else if resp.length < 3 then .panicked .stripSlice
      else
        match utf8DecodeStr ((resp.take (resp.length - 2)).drop 1) with
        | none => .err .expectedUtf8
        | some s => .ok s

/-- Model of `Inverter::read_response` against a transport whose successive 8-byte
reads are `chunks`. -/
def read_response (chunks : List (List Nat)) : RunResult String :=
  match readLoop chunks [] with
  | none => .blocked
  | some resp => validateResp resp

/-! ## Sensor configuration (`config.rs`) and value parsing -/

inductive ValueType where
  | integer
  | float
  | string
deriving DecidableEq, Repr

structure SensorConfig where
  name : String
  human_name : Option String
  value_type : ValueType
  device_class : String
  unit_of_measurement : String
  icon : String
deriving DecidableEq, Repr

structure CommandConfig where
  command : String
  sensors : List (Option SensorConfig)
deriving DecidableEq, Repr

/-- Model of an `f64` (or `f32`) value as produced by Rust's float parser:
the exact decimal rational, or an infinity/NaN marker.  The final IEEE
rounding of the decimal value is not modelled. -/
inductive F64 where
  | finite (q : Rat)
  | inf (neg : Bool)
  | nan
deriving DecidableEq, Repr

def isDigitChar (c : Char) : Bool :=
  48 ≤ c.toNat && c.toNat ≤ 57

def digitsVal (ds : List Char) : Nat :=
  ds.foldl (fun a c => 10 * a + (c.toNat - 48)) 0

def spanDigits (cs : List Char) : List Char × List Char :=
  (cs.takeWhile isDigitChar, cs.dropWhile isDigitChar)

/-- Optional leading sign; returns whether it was `-` and the remainder. -/
def parseSign : List Char → Bool × List Char
  | '+' :: r => (false, r)
  | '-' :: r => (true, r)
  | cs => (false, cs)

def asciiLower (c : Char) : Char :=
  if 65 ≤ c.toNat && c.toNat ≤ 90 then Char.ofNat (c.toNat + 32) else c

/-- Exponent suffix of Rust's float grammar: empty, or `e`/`E`, an optional
sign, then at least one digit and nothing else. -/
def parseExpSuffix (cs : List Char) : Option Int :=
  match cs with
  | [] => some 0
  | e :: rest =>
    if e == 'e' || e == 'E' then
      let (neg, r2) := parseSign rest
      let (ds, r3) := spanDigits r2
      if ds.isEmpty || !r3.isEmpty then none
      else some (if neg then -(digitsVal ds : Int) else (digitsVal ds : Int))
    else none

/-- Combine a decimal mantissa `m`, a count `f` of fractional digits and a
signed exponent `e` into an exact numerator/denominator pair denoting
`m / 10^f * 10^e`. -/
def decimalNumDen (m : Nat) (f : Nat) (e : Int) : Nat × Nat :=
  if 0 ≤ e then (m * 10 ^ e.toNat, 10 ^ f) else (m, 10 ^ f * 10 ^ (-e).toNat)

/-- The finite-number part of Rust's `f64`/`f32` grammar
(`Digits '.'? Digits? Exp?` or `'.' Digits Exp?`), evaluated exactly as a
numerator/denominator pair. -/
def parseDecimal (cs : List Char) : Option (Nat × Nat) :=
  let (ip, rest) := spanDigits cs
  match rest with
  | '.' :: rest2 =>
    let (fp, rest3) := spanDigits rest2
    if ip.isEmpty && fp.isEmpty then none
    else
      (parseExpSuffix rest3).map fun e =>
        decimalNumDen (digitsVal ip * 10 ^ fp.length + digitsVal fp) fp.length e
  | _ =>
    if ip.isEmpty then none
    else (parseExpSuffix rest).map fun e => decimalNumDen (digitsVal ip) 0 e

/-- Rust `f64::from_str` (the same grammar backs `f32`): optional sign,
then `inf`/`infinity`/`nan` (case-insensitive) or a finite decimal
number. -/
def parseF64 (s : String) : Option F64 :=
  let (neg, cs) := parseSign s.toList
  let low := cs.map asciiLower
  if low == ['i', 'n', 'f'] || low == ['i', 'n', 'f', 'i', 'n', 'i', 't', 'y'] then
    some (.inf neg)
  else if low == ['n', 'a', 'n'] then some .nan
  else
    (parseDecimal cs).map fun nd =>
      .finite (mkRat (if neg then -(Int.ofNat nd.1) else Int.ofNat nd.1) nd.2)

/-- Rust's integer `from_str`: an optional sign (`-` accepted only for
signed types), then at least one digit and nothing else, with a
width-dependent range check. -/
def parseRustInt (allowNeg : Bool) (lo hi : Int) (s : String) : Option Int :=
  let (neg, cs) := parseSign s.toList
  if neg && !allowNeg then none
  else
    let (ds, rest) := spanDigits cs
    if ds.isEmpty || !rest.isEmpty then none
    else
      let v : Int := if neg then -(digitsVal ds : Int) else (digitsVal ds : Int)
      if v < lo || hi < v then none else some v

/-- Model of `str::parse::<i64>()`. -/
def parseI64 (s : String) : Option Int :=
  parseRustInt true (-(2 ^ 63)) (2 ^ 63 - 1) s

inductive SensorValue where
  | integer (v : Int)
  | float (v : F64)
  | string (v : String)
deriving DecidableEq, Repr

/-- The ASCII whitespace class (`u8::is_ascii_whitespace`) used by
`str::split_ascii_whitespace`: space, tab, newline, form feed, carriage
return. -/
def isAsciiWhitespace (c : Char) : Bool :=
  c == ' ' || c == '\t' || c == '\n' || c == '\x0c' || c == '\r'

/-- Worker for `split_ascii_whitespace`: `cur` holds the current token's
characters in reverse. -/
def splitAsciiWhitespaceGo : List Char → List Char → List String
  | [], cur => if cur.isEmpty then [] else [String.mk cur.reverse]
  | c :: rest, cur =>
    if isAsciiWhitespace c then
      if cur.isEmpty then splitAsciiWhitespaceGo rest []
      else String.mk cur.reverse :: splitAsciiWhitespaceGo rest []
    else splitAsciiWhitespaceGo rest (c :: cur)

/-- Model of `str::split_ascii_whitespace`: the maximal runs of non-whitespace
characters, with no empty tokens. -/
def split_ascii_whitespace (s : String) : List String :=
  splitAsciiWhitespaceGo s.toList []

/-- Model of `HashMap::insert` on an association list: overwrite an
existing key in place, otherwise append.  Key order is immaterial to every
statement below; the claims use maps with distinct keys. -/
def insertAssoc (m : List (String × SensorValue)) (k : String) (v : SensorValue) :
    List (String × SensorValue) :=
  if m.any (fun p => p.1 == k) then m.map (fun p => if p.1 == k then (k, v) else p)
  else m ++ [(k, v)]

/-- Conversion of one token per the sensor's declared value type (the
`match sensor.value_type` arms inside `Inverter::execute_command`). -/
def sensorParse (sensor : SensorConfig) (value : String) :
    Except ParseResponseError SensorValue :=
  match sensor.value_type with
  | .integer =>
    match parseI64 value with
    | some i => .ok (.integer i)
    | none => .error (.expectedInteger sensor.name)
  | .float =>
    match parseF64 value with
    | some f => .ok (.float f)
    | none => .error (.expectedFloat sensor.name)
  | .string => .ok (.string value)

/-- The sensor/token zip loop of `Inverter::execute_command`: iteration
stops when either list runs out; a `None` descriptor consumes its token
without validation; a conversion failure is wrapped in
`InverterError::ParseResponse` and returned at once. -/
def parseSensorsGo :
    List (Option SensorConfig) → List String → List (String × SensorValue) →
      Except InverterError (List (String × SensorValue))
  | [], _, m => .ok m
  | _ :: _, [], m => .ok m
  | sensor :: ss, v :: vs, m =>
    match sensor with
    | none => parseSensorsGo ss vs m
    | some sc =>
      match sensorParse sc v with
      | .error e => .error (.parseResponse e)
      | .ok val => parseSensorsGo ss vs (insertAssoc m sc.name val)

/-- The sensor-mapping stage of `Inverter::execute_command` applied to a
decoded response string. -/
def parseSensors (sensors : List (Option SensorConfig)) (resp : String) :
    Except InverterError (List (String × SensorValue)) :=
  parseSensorsGo sensors (split_ascii_whitespace resp) []

/-- Model of `Inverter::execute_command` against a transport whose successive 8-byte
reads are `chunks`: encode and send the command, read and decode the
response, then zip the sensor descriptors over the whitespace-separated
tokens. -/
def execute_command (chunks : List (List Nat)) (cfg : CommandConfig) :
    RunResult (List (String × SensorValue)) :=
  match encode_command cfg.command with
  | .error e => .err e
  | .ok _frame =>
    match read_response chunks with
    | .ok resp =>
      match parseSensors cfg.sensors resp with
      | .ok m => .ok m
      | .error e => .err e
    | .err e => .err e
    | .panicked site => .panicked site
    | .blocked => .blocked

/-! ## TokenDeserializer (`src/parse.rs`) -/

/-- Errors of the token deserializer (`DeError` in `parse.rs`).  The opaque `source` payloads
(`ParseFloatError`/`ParseIntError`) are not modelled. -/
inductive DeError where
  | message (msg : String)
  | unsupportedType (typ : String)
  | missingField
  | expectedValue (field : String)
  | expectedChar (field : String)
  | expectedFloat (field : String)
  | expectedInteger (field : String)
deriving DecidableEq, Repr

/-- The state of `Deserializer`: the not-yet-consumed whitespace tokens and
the active field name. -/
structure DeState where
  values : List String
  field : Option String
deriving DecidableEq, Repr

/-- Model of `Deserializer::from_str`. -/
def deFromStr (input : String) : DeState :=
  { values := split_ascii_whitespace input, field := none }

/-- Model of `Deserializer::value`: the next token, or `ExpectedValue` carrying the
active field name (`<unknown>` when none is set). -/
def deValue (st : DeState) : Except DeError (String × DeState) :=
  match st.values with
  | [] => .error (.expectedValue (st.field.getD "<unknown>"))
  | v :: rest => .ok (v, { st with values := rest })

/-- Model of `Deserializer::field_or_unknown`. -/
def deFieldOrUnknown (st : DeState) : String :=
  st.field.getD "<unknown>"

/-- The `serde` `deserialize_*` entry points implemented (or refused) by
`impl de::Deserializer for &mut Deserializer` in `parse.rs` that concern a
single leaf value; the compound entry points (`struct`, `seq`, `tuple`)
are modelled separately. -/
inductive ReqShape where
  | any
  | bool
  | i8
  | i16
  | i32
  | i64
  | u8
  | u16
  | u32
  | u64
  | f32
  | f64
  | char
  | str
  | string
  | bytes
  | byteBuf
  | option
  | unit
  | unitStruct
  | newtypeStruct
  | tupleStruct
  | map
  | enum
  | identifier
  | ignoredAny
deriving DecidableEq, Repr

/-- The `typ` string used by `DeError::unsupported_type` for each refused
entry point, and the method-name suffix for the others. -/
def reqShapeName : ReqShape → String
  | .any => "any"
  | .bool => "bool"
  | .i8 => "i8"
  | .i16 => "i16"
  | .i32 => "i32"
  | .i64 => "i64"
  | .u8 => "u8"
  | .u16 => "u16"
  | .u32 => "u32"
  | .u64 => "u64"
  | .f32 => "f32"
  | .f64 => "f64"
  | .char => "char"
  | .str => "str"
  | .string => "string"
  | .bytes => "bytes"
  | .byteBuf => "byte_buf"
  | .option => "option"
  | .unit => "unit"
  | .unitStruct => "unit_struct"
  | .newtypeStruct => "newtype_struct"
  | .tupleStruct => "tuple_struct"
  | .map => "map"
  | .enum => "enum"
  | .identifier => "identifier"
  | .ignoredAny => "ignored_any"

/-- A deserialized leaf value. -/
inductive LeafValue where
  | int (v : Int)
  | float (v : F64)
  | char (v : Char)
  | str (v : String)
deriving DecidableEq, Repr

/-- Shared body of the eight `deserialize_i*`/`deserialize_u*` methods:
consume a token, parse it at the requested width, tag failures with the
active field name. -/
def deserializeIntLeaf (allowNeg : Bool) (lo hi : Int) (st : DeState) :
    Except DeError (LeafValue × DeState) :=
  match deValue st with
  | .error e => .error e
  | .ok (v, st') =>
    match parseRustInt allowNeg lo hi v with
    | some i => .ok (.int i, st')
    | none => .error (.expectedInteger (deFieldOrUnknown st'))

/-- Shared body of `deserialize_f32`/`deserialize_f64`. -/
def deserializeFloatLeaf (st : DeState) : Except DeError (LeafValue × DeState) :=
  match deValue st with
  | .error e => .error e
  | .ok (v, st') =>
    match parseF64 v with
    | some f => .ok (.float f, st')
    | none => .error (.expectedFloat (deFieldOrUnknown st'))

/-- Dispatch over the leaf `deserialize_*` methods of
`impl de::Deserializer` in `parse.rs`, each case transcribed from its
method body.  The refused shapes return `Err(DeError::unsupported_type(..))`
without touching the token stream. -/
def deserializeLeaf (shape : ReqShape) (st : DeState) :
    Except DeError (LeafValue × DeState) :=
  match shape with
  | .identifier =>
    match st.field with
    | some f => .ok (.str f, st)
    | none => .error .missingField
  | .str =>
    match deValue st with
    | .error e => .error e
    | .ok (v, st') => .ok (.str v, st')
  | .string =>
    -- `deserialize_string` delegates to `deserialize_str`; inlined here.
    match deValue st with
    | .error e => .error e
    | .ok (v, st') => .ok (.str v, st')
  | .char =>
    match deValue st with
    | .error e => .error e
    | .ok (v, st') =>
      if (strBytes v).length != 1 then .error (.expectedChar (deFieldOrUnknown st'))
      else .ok (.char (v.toList.headD ' '), st')
  | .i8 => deserializeIntLeaf true (-128) 127 st
  | .i16 => deserializeIntLeaf true (-32768) 32767 st
  | .i32 => deserializeIntLeaf true (-2147483648) 2147483647 st
  | .i64 => deserializeIntLeaf true (-(2 ^ 63)) (2 ^ 63 - 1) st
  | .u8 => deserializeIntLeaf false 0 255 st
  | .u16 => deserializeIntLeaf false 0 65535 st
  | .u32 => deserializeIntLeaf false 0 4294967295 st
  | .u64 => deserializeIntLeaf false 0 (2 ^ 64 - 1) st
  | .f32 => deserializeFloatLeaf st
  | .f64 => deserializeFloatLeaf st
  | .any => .error (.unsupportedType "any")
  | .bool => .error (.unsupportedType "bool")
  | .bytes => .error (.unsupportedType "bytes")
  | .byteBuf => .error (.unsupportedType "byte_buf")
  | .option => .error (.unsupportedType "option")
  | .unit => .error (.unsupportedType "unit")
  | .unitStruct => .error (.unsupportedType "unit_struct")
  | .newtypeStruct => .error (.unsupportedType "newtype_struct")
  | .tupleStruct => .error (.unsupportedType "tuple_struct")
  | .map => .error (.unsupportedType "map")
  | .enum => .error (.unsupportedType "enum")
  | .ignoredAny => .error (.unsupportedType "ignored_any")

/-- The struct path: `deserialize_struct` hands the declared field list to
`visit_map (SpaceSeparated::new ..)`; the derived `Deserialize` visitor
then alternates `next_key_seed` (which sets the active field and reads it
back through `deserialize_identifier`) and `next_value_seed` (which
deserializes the field's declared leaf shape) in declared order until the
field iterator is exhausted.  Models `serde_derive`'s generated struct
visitor driven by this deserializer. -/
def deserializeStructFields :
    List (String × ReqShape) → DeState →
      Except DeError (List (String × LeafValue) × DeState)
  | [], st => .ok ([], st)
  | (name, shape) :: rest, st =>
    let st1 := { st with field := some name }
    match deserializeLeaf .identifier st1 with
    | .error e => .error e
    | .ok (_, st2) =>
      match deserializeLeaf shape st2 with
      | .error e => .error e
      | .ok (v, st3) =>
        match deserializeStructFields rest st3 with
        | .error e => .error e
        | .ok (vs, st') => .ok ((name, v) :: vs, st')

/-- Model of `parse::from_str` deserializing a struct with the given named fields
(tokens left over after the last field are ignored, as in the source). -/
def from_str_struct (fields : List (String × ReqShape)) (s : String) :
    Except DeError (List (String × LeafValue)) :=
  (deserializeStructFields fields (deFromStr s)).map Prod.fst

/-- The `Data` schema of the parse tests:
`voltage: f32, frequency: f32, status: String`. -/
def dataFields : List (String × ReqShape) :=
  [("voltage", .f32), ("frequency", .f32), ("status", .string)]

/-- The sensor descriptor used by the inverter tests: a float sensor named
`sensor1`. -/
def sensor1Config : SensorConfig :=
  { name := "sensor1"
    human_name := none
    value_type := .float
    device_class := "voltage"
    unit_of_measurement := "V"
    icon := "mdi:power-plug" }

/-- Did the fallible computation succeed? -/
def exceptIsOk : Except ε α → Bool
  | .ok _ => true
  | .error _ => false

/-- Every token zipped against a present descriptor converts successfully
per that descriptor's declared value type (absent descriptors always
pass; the zip stops at the shorter list). -/
def zipParsesOk : List (Option SensorConfig) → List String → Bool
  | [], _ => true
  | _ :: _, [] => true
  | none :: ss, _ :: ts => zipParsesOk ss ts
  | some sc :: ss, t :: ts => exceptIsOk (sensorParse sc t) && zipParsesOk ss ts

end Inverter2Mqtt

namespace Inverter2Mqtt

/-! ## Theorems about the checksum engine -/

theorem crcRound_lt (s : Nat) : crcRound s < 65536 := by
  unfold crcRound
  split <;> exact Nat.mod_lt _ (by decide)

theorem crcUpdate_lt (s b : Nat) : crcUpdate s b < 65536 :=
  crcRound_lt _

theorem foldl_crcUpdate_lt (d : List Nat) (s : Nat) (h : s < 65536) :
    d.foldl crcUpdate s < 65536 := by
  induction d generalizing s with
  | nil => exact h
  | cons b rest ih => exact ih _ (crcUpdate_lt s b)

theorem calc_crc_lt (d : List Nat) : calc_crc d < 65536 :=
  foldl_crcUpdate_lt d 0 (by decide)

/-- Xoring the register's own high byte back into the high half of the
register leaves exactly its low byte: with `c < 2^16`, the high bytes
cancel under xor. -/
theorem crc_xor_high_cancel {c : Nat} (h : c < 65536) :
    c ^^^ (((c >>> 8) &&& 0xff) <<< 8) = c &&& 0xff := by
  have h255 : ∀ j : Nat, (0xff : Nat).testBit j = decide (j < 8) := by
    intro j
    have h2 : (0xff : Nat) = 2 ^ 8 - 1 := by norm_num
    rw [h2, Nat.testBit_two_pow_sub_one]
  apply Nat.eq_of_testBit_eq
  intro i
  rw [Nat.testBit_xor, Nat.testBit_and, h255, Nat.testBit_shiftLeft,
    Nat.testBit_and, Nat.testBit_shiftRight, h255]
  by_cases h8 : i < 8
  · simp [show ¬ i ≥ 8 by omega, h8]
  · by_cases h16 : i < 16
    · have hi : 8 + (i - 8) = i := by omega
      simp [show i ≥ 8 by omega, hi, show i - 8 < 8 by omega, h8]
    · have hpow : (65536 : Nat) ≤ 2 ^ i := by
        calc (65536 : Nat) = 2 ^ 16 := by norm_num
        _ ≤ 2 ^ i := Nat.pow_le_pow_right (by norm_num) (by omega)
      have hc : c.testBit i = false :=
        Nat.testBit_lt_two_pow (Nat.lt_of_lt_of_le h hpow)
      simp [hc, show ¬ i - 8 < 8 by omega, h8]

set_option maxRecDepth 10000 in
set_option maxHeartbeats 2000000 in
theorem crcLowCheckBelow_256 : crcLowCheckBelow 256 = true := by
  decide

theorem crcLowCheck_of_lt :
    ∀ n, crcLowCheckBelow n = true → ∀ l, l < n → crcLowCheck l = true := by
  intro n
  induction n with
  | zero => intro _ l hl; omega
  | succ n ih =>
    intro h l hl
    have h' : (crcLowCheck n && crcLowCheckBelow n) = true := h
    rcases Bool.and_eq_true_iff.mp h' with ⟨h1, h2⟩
    rcases Nat.lt_succ_iff_lt_or_eq.mp hl with hlt | heq
    · exact ih h2 l hlt
    · subst heq; exact h1

/-- Feeding a 16-bit register value's own big-endian bytes back into the CRC
drives the register to zero. -/
theorem crc_register_self (c : Nat) (h : c < 65536) :
    crcUpdate (crcUpdate c (c >>> 8)) (c &&& 0xff) = 0 := by
  have h1 : crcUpdate c (c >>> 8) = crcShift8 (c &&& 0xff) := by
    rw [crcUpdate, crc_xor_high_cancel h]
  have hl : c &&& 0xff < 256 :=
    Nat.lt_of_le_of_lt Nat.and_le_right (by norm_num)
  have hchk := crcLowCheck_of_lt 256 crcLowCheckBelow_256 (c &&& 0xff) hl
  rw [h1]
  simpa [crcLowCheck] using hchk

theorem calc_crc_append (d e : List Nat) :
    calc_crc (d ++ e) = e.foldl crcUpdate (calc_crc d) := by
  simp [calc_crc, List.foldl_append]

/-- C1. Checksum self-verification: for every byte sequence `d`, computing
the CRC-16/XMODEM checksum of `d`, appending it as two bytes big-endian
(high byte `crc >> 8`, low byte `crc & 0xff`, exactly as
`Inverter::encode_command` pushes them), and running the checksum over the
extended sequence yields 0. -/
theorem C1_crc_self_verification (d : List Nat) :
    calc_crc (d ++ [calc_crc d >>> 8, calc_crc d &&& 0xff]) = 0 := by
  rw [calc_crc_append]
  have hfold :
      List.foldl crcUpdate (calc_crc d) [calc_crc d >>> 8, calc_crc d &&& 0xff]
        = crcUpdate (crcUpdate (calc_crc d) (calc_crc d >>> 8)) (calc_crc d &&& 0xff) := rfl
  rw [hfold]
  exact crc_register_self (calc_crc d) (calc_crc_lt d)

/-! ## Frame decoding -/

set_option maxRecDepth 40000

/-- C2. Decode happy path with chunked reassembly: two 8-byte reads whose
bytes are `('0 233.7` then `09 c7 0D 00 00 00 00 00` are trimmed of
trailing zeros, reassembled, stopped at the terminator, and pass marker and
checksum validation, yielding the payload string `"0 233.7"` with no
error. -/
theorem C2_chunked_reassembly_decode :
    read_response [[40, 48, 32, 50, 51, 51, 46, 55], [9, 199, 13, 0, 0, 0, 0, 0]]
      = .ok "0 233.7" := rfl

/-- C3 fails as stated: the frame `['(']` (reassembled from the single
chunk `28 0D 00 ...`) has the marker present and a nonzero whole-frame
checksum, yet `read_response` panics on the `usize` underflow
`resp.len() - 2` instead of returning `InvalidCrc`. -/
theorem C3_counterexample :
    ([40] : List Nat).head? = some START_RESPONSE_MARKER ∧
      calc_crc [40] ≠ 0 ∧
      validateResp [40] = .panicked .crcLenUnderflow := by
  refine ⟨rfl, by decide, rfl⟩

/-- C3 (amended with a 2-byte minimum): for every reassembled frame of
length at least 2 whose first byte is the marker and whose checksum over
the entire accumulator is nonzero, validation fails with `InvalidCrc`
whose `expected` field is the checksum recomputed over all bytes except
the last two, whose `actual` field is the big-endian value of the last two
bytes, and whose `data` field is the (lossily decoded) frame without the
two trailing checksum bytes. -/
theorem C3_crc_mismatch_diagnostics (resp : List Nat)
    (hmark : resp.head? = some START_RESPONSE_MARKER)
    (hlen : 2 ≤ resp.length)
    (hcrc : calc_crc resp ≠ 0) :
    validateResp resp =
      .err (.invalidCrc
        (hexFormat16 (calc_crc (resp.take (resp.length - 2))))
        (hexFormat16
          (((resp.getD (resp.length - 2) 0) <<< 8) ||| resp.getD (resp.length - 1) 0))
        (utf8Lossy (resp.take (resp.length - 2)))) := by
  cases resp with
  | nil => simp at hmark
  | cons b rest =>
    have hb : b = START_RESPONSE_MARKER := by simpa using hmark
    subst hb
    have h2 : (calc_crc (START_RESPONSE_MARKER :: rest) != 0) = true :=
      bne_iff_ne.mpr hcrc
    have h3 : ¬ (START_RESPONSE_MARKER :: rest).length < 2 := by omega
    simp only [List.length_cons] at hlen
    simp [validateResp, h2, h3]
    omega

/-- Witness for C3: the reassembly example with checksum byte `0xc8` in
place of `0xc7` fails with
`InvalidCrc{expected: "0x09c7", actual: "0x09c8", data: "(0 233.7"}`. -/
theorem C3_crc_mismatch_witness :
    read_response [[40, 48, 32, 50, 51, 51, 46, 55], [9, 200, 13, 0, 0, 0, 0, 0]]
      = .err (.invalidCrc "0x09c7" "0x09c8" "(0 233.7") := by
  have h := C3_crc_mismatch_diagnostics [40, 48, 32, 50, 51, 51, 46, 55, 9, 200]
    rfl (by decide) (by decide)
  exact h

/-- C10. Decode is not total on degenerate frames: a chunk whose trimmed
content is exactly the terminator leaves the accumulator empty, so the
marker check `resp[0]` indexes out of bounds; and a frame consisting of
the marker alone has a nonzero checksum and fewer than 2 bytes, so
`resp.len() - 2` underflows while building the `InvalidCrc` diagnostic. -/
theorem C10_read_response_panics :
    read_response [[13, 0, 0, 0, 0, 0, 0, 0]] = .panicked .emptyRespIndex ∧
      read_response [[40, 13, 0, 0, 0, 0, 0, 0]] = .panicked .crcLenUnderflow :=
  ⟨rfl, rfl⟩

/-! ## Frame encoding -/

/-- C4. Encode frame layout and minimum length: for every ASCII command of
at most 5 bytes, `encode_command` returns the command bytes, the CRC high
byte, the CRC low byte, and the terminator `0x0D`, zero-padded on the
right to 8 bytes; for commands shorter than 5 bytes the frame length is
exactly 8; and `encode_command "QPIGS"` is `[81,80,73,71,83,183,169,13]`. -/
theorem C4_encode_frame_layout :
    (∀ cmd : String, (∀ c ∈ cmd.toList, c.toNat < 128) →
      (strBytes cmd).length ≤ 5 →
      encode_command cmd =
          .ok ((strBytes cmd ++
              [(calc_crc (strBytes cmd) >>> 8) &&& 0xff, calc_crc (strBytes cmd) &&& 0xff,
                END_RESPONSE_MARKER]) ++
            List.replicate (8 - ((strBytes cmd).length + 3)) 0) ∧
        ((strBytes cmd).length < 5 →
          ((strBytes cmd ++
              [(calc_crc (strBytes cmd) >>> 8) &&& 0xff, calc_crc (strBytes cmd) &&& 0xff,
                END_RESPONSE_MARKER]) ++
            List.replicate (8 - ((strBytes cmd).length + 3)) 0).length = 8)) ∧
    encode_command "QPIGS" = .ok [81, 80, 73, 71, 83, 183, 169, 13] := by
  constructor
  · intro cmd _hascii hlen
    constructor
    · simp only [encode_command, MAX_COMMAND_LENGTH]
      rw [if_neg (by omega)]
      rcases Nat.lt_or_ge ((strBytes cmd).length + 3) 8 with hsz | hsz
      · rw [if_pos (by simpa using hsz)]
        simp [List.length_append]
      · rw [if_neg (by simpa using Nat.not_lt.mpr hsz)]
        have hz : 8 - ((strBytes cmd).length + 3) = 0 := by omega
        simp [hz]
    · intro hshort
      simp only [List.length_append, List.length_replicate, List.length_cons,
        List.length_nil]
      omega
  · rfl

/-- Witness for C4 at the concrete command `"QPIGS"` (5 ASCII bytes). -/
theorem C4_encode_witness :
    encode_command "QPIGS" =
      .ok ((strBytes "QPIGS" ++
          [(calc_crc (strBytes "QPIGS") >>> 8) &&& 0xff, calc_crc (strBytes "QPIGS") &&& 0xff,
            END_RESPONSE_MARKER]) ++
        List.replicate (8 - ((strBytes "QPIGS").length + 3)) 0) :=
  ((C4_encode_frame_layout.1 "QPIGS" (by decide) (by decide)).1)

/-- C8. `CommandTooLong` policy: `encode_command` fails with
`CommandTooLong` exactly when the command's byte length exceeds
`MAX_COMMAND_LENGTH = 5`; every command of at most 5 bytes encodes to a
frame. -/
theorem C8_command_too_long_policy (cmd : String) :
    (encode_command cmd = .error (.commandTooLong cmd) ↔ 5 < (strBytes cmd).length) ∧
      ((strBytes cmd).length ≤ 5 → ∃ frame, encode_command cmd = .ok frame) := by
  constructor
  · constructor
    · intro h
      by_contra hn
      rw [Nat.not_lt] at hn
      simp only [encode_command, MAX_COMMAND_LENGTH] at h
      rw [if_neg (by omega)] at h
      split at h <;> simp at h
    · intro h
      simp only [encode_command, MAX_COMMAND_LENGTH]
      rw [if_pos (by omega)]
  · intro h
    simp only [encode_command, MAX_COMMAND_LENGTH]
    rw [if_neg (by omega)]
    split
    · exact ⟨_, rfl⟩
    · exact ⟨_, rfl⟩

/-- Witness for C8: `"QPIGS"` is 5 bytes long and encodes successfully. -/
theorem C8_command_witness : ∃ frame, encode_command "QPIGS" = .ok frame :=
  (C8_command_too_long_policy "QPIGS").2 (by decide)

/-! ## Struct schema parsing -/

/-- C5 fails as stated: removing only the last token (`"000"`) from
`"233.6 49.9 01001 000"` leaves exactly one token per declared field, so
deserialization still succeeds (with the same struct) instead of failing
with `ExpectedValue{field: "status"}`. -/
theorem C5_counterexample :
    from_str_struct dataFields "233.6 49.9 01001"
        = .ok [("voltage", .float (.finite (mkRat 2336 10))),
            ("frequency", .float (.finite (mkRat 499 10))),
            ("status", .str "01001")] ∧
      from_str_struct dataFields "233.6 49.9 01001" ≠ .error (.expectedValue "status") :=
  ⟨rfl, fun h => nomatch (rfl : from_str_struct dataFields "233.6 49.9 01001"
      = from_str_struct dataFields "233.6 49.9 01001") ▸ h⟩

/-- C5 (amended: two tokens must be missing, not one): the token stream
`"233.6 49.9 01001 000"` against the ordered fields
`[voltage: f32, frequency: f32, status: string]` yields
`{voltage: 233.6, frequency: 49.9, status: "01001"}` (values as exact
rationals, `mkRat 2336 10 = 233.6`, `mkRat 499 10 = 49.9`); the stream
`"233.6 49.9"`, exhausted before `status` consumes its token, fails with
`ExpectedValue{field: "status"}`. -/
theorem C5_struct_schema_parse :
    from_str_struct dataFields "233.6 49.9 01001 000"
        = .ok [("voltage", .float (.finite (mkRat 2336 10))),
            ("frequency", .float (.finite (mkRat 499 10))),
            ("status", .str "01001")] ∧
      from_str_struct dataFields "233.6 49.9" = .error (.expectedValue "status") :=
  ⟨rfl, rfl⟩

/-! ## Positional sensor parsing -/

/-- C6. Positional sensor parse: descriptors `[None, Some(float "sensor1")]`
against the decoded response `"0 233.7"` yield exactly
`{sensor1: Float(233.7)}` (`mkRat 2337 10 = 233.7`; the `None` descriptor
consumes and discards its token), and the unparsable token `"a"` against a
float-typed descriptor fails with `ParseResponse` wrapping
`ExpectedFloat{sensor: "sensor1"}`. -/
theorem C6_positional_sensor_parse :
    parseSensors [none, some sensor1Config] "0 233.7"
        = .ok [("sensor1", .float (.finite (mkRat 2337 10)))] ∧
      parseSensors [some sensor1Config] "a"
        = .error (.parseResponse (.expectedFloat "sensor1")) :=
  ⟨rfl, rfl⟩

theorem parseSensorsGo_take (ss : List (Option SensorConfig)) (ts : List String)
    (acc : List (String × SensorValue)) :
    parseSensorsGo ss ts acc = parseSensorsGo (ss.take ts.length) ts acc := by
  induction ss generalizing ts acc with
  | nil => simp
  | cons s ss' ih =>
    cases ts with
    | nil => rfl
    | cons t ts' =>
      simp only [List.length_cons, List.take_succ_cons]
      cases s with
      | none => simpa only [parseSensorsGo] using ih ts' acc
      | some sc =>
        simp only [parseSensorsGo]
        cases sensorParse sc t with
        | error e => rfl
        | ok v => exact ih ts' (insertAssoc acc sc.name v)

theorem parseSensorsGo_ok_iff (ss : List (Option SensorConfig)) (ts : List String)
    (acc : List (String × SensorValue)) :
    (∃ m, parseSensorsGo ss ts acc = .ok m) ↔ zipParsesOk ss ts = true := by
  induction ss generalizing ts acc with
  | nil => simp [parseSensorsGo, zipParsesOk]
  | cons s ss' ih =>
    cases ts with
    | nil => simp [parseSensorsGo, zipParsesOk]
    | cons t ts' =>
      cases s with
      | none =>
        simpa only [parseSensorsGo, zipParsesOk] using ih ts' acc
      | some sc =>
        simp only [parseSensorsGo, zipParsesOk]
        cases sensorParse sc t with
        | error e => simp [exceptIsOk]
        | ok v => simpa [exceptIsOk] using ih ts' (insertAssoc acc sc.name v)

/-- C7 fails as stated: the response `"a"` has fewer tokens (1) than the
descriptor list `[Some(float "sensor1"), None]` has entries (2), yet
`execute_command`'s sensor mapping does not return successfully — the
token in the zipped prefix fails its float conversion. -/
theorem C7_counterexample :
    (split_ascii_whitespace "a").length
        < ([some sensor1Config, none] : List (Option SensorConfig)).length ∧
      parseSensors [some sensor1Config, none] "a"
        = .error (.parseResponse (.expectedFloat "sensor1")) :=
  ⟨by decide, rfl⟩

/-- C7 (amended: the truncation itself is silent, but the zipped prefix
must still convert): for every descriptor list and every decoded response
with fewer whitespace tokens than descriptors, the sensor mapping behaves
exactly as if the descriptor list were truncated to the token count — the
excess descriptors are silently dropped and contribute no error — and the
call returns successfully precisely when every token zipped against a
present descriptor converts per its declared value type. -/
theorem C7_positional_truncation (sensors : List (Option SensorConfig)) (resp : String)
    (_htrunc : (split_ascii_whitespace resp).length < sensors.length) :
    parseSensors sensors resp
        = parseSensors (sensors.take (split_ascii_whitespace resp).length) resp ∧
      ((∃ m, parseSensors sensors resp = .ok m) ↔
        zipParsesOk sensors (split_ascii_whitespace resp) = true) :=
  ⟨parseSensorsGo_take sensors (split_ascii_whitespace resp) [],
    parseSensorsGo_ok_iff sensors (split_ascii_whitespace resp) []⟩

/-- Witness for C7: three descriptors against the two tokens of
`"0 233.7"`. -/
theorem C7_truncation_witness :
    parseSensors [none, some sensor1Config, none] "0 233.7"
        = parseSensors
            (([none, some sensor1Config, none] : List (Option SensorConfig)).take
              (split_ascii_whitespace "0 233.7").length) "0 233.7" ∧
      ((∃ m, parseSensors [none, some sensor1Config, none] "0 233.7" = .ok m) ↔
        zipParsesOk [none, some sensor1Config, none]
          (split_ascii_whitespace "0 233.7") = true) :=
  C7_positional_truncation [none, some sensor1Config, none] "0 233.7" (by decide)

/-! ## Unsupported deserializer shapes -/

/-- C9. Unsupported shape rejection: from any deserializer state,
requesting the shapes `any`, `bool`, `bytes`, `byte_buf`, `option`,
`unit`, `unit_struct`, `newtype_struct`, `tuple_struct`, `map`, `enum` or
`ignored_any` fails with `UnsupportedType` naming that shape; no token is
consumed and no value is produced (the error is returned before the token
stream is touched). -/
theorem C9_unsupported_shape_rejection (st : DeState) :
    deserializeLeaf .any st = .error (.unsupportedType "any") ∧
      deserializeLeaf .bool st = .error (.unsupportedType "bool") ∧
      deserializeLeaf .bytes st = .error (.unsupportedType "bytes") ∧
      deserializeLeaf .byteBuf st = .error (.unsupportedType "byte_buf") ∧
      deserializeLeaf .option st = .error (.unsupportedType "option") ∧
      deserializeLeaf .unit st = .error (.unsupportedType "unit") ∧
      deserializeLeaf .unitStruct st = .error (.unsupportedType "unit_struct") ∧
      deserializeLeaf .newtypeStruct st = .error (.unsupportedType "newtype_struct") ∧
      deserializeLeaf .tupleStruct st = .error (.unsupportedType "tuple_struct") ∧
      deserializeLeaf .map st = .error (.unsupportedType "map") ∧
      deserializeLeaf .enum st = .error (.unsupportedType "enum") ∧
      deserializeLeaf .ignoredAny st = .error (.unsupportedType "ignored_any") :=
  ⟨rfl, rfl, rfl, rfl, rfl, rfl, rfl, rfl, rfl, rfl, rfl, rfl⟩

end Inverter2Mqtt
